import Mathlib

/-!
Shallow embedding of `smallsh.c` (a small interactive shell) and proofs of
its specification claims.

The embedding models:
* the `Command` struct and the token-scanning loop of `getCommand`
  (tokens are the output of `strtok` on the input line with delimiters
  space, tab, newline; `strtok` never yields an empty token);
* the dispatch and launch logic of `execCommand`, split into the parent
  process's view (an `ExecResult`: the new `ENDSTATE`, the trace of
  externally visible actions, and the loop-exit flag) and the child
  process's view (`childRun`: signal setup, null-device substitution,
  redirection, exec);
* the background reaper `cleanUp` as a trace over the list of children
  that are immediately reapable at the moment it runs;
* the signal-disposition tables installed by `main` (shell) and by the
  child branch of `execCommand`.

Nondeterministic outside inputs (fork success, the child pid, the wait
status delivered by `waitpid`, `chdir` success, which `open`/`exec` calls
succeed) are passed in explicitly through `Env` / `ChildEnv`.
`strdup(NULL)` — which `getCommand` performs when a redirection marker is
the last token of the line — is undefined behavior in C (glibc crashes);
the embedding of the parser therefore returns `Option`, with `none` on
exactly those token sequences.
-/

set_option autoImplicit false

namespace Smallsh

/-- The `struct Command` of `smallsh.c`. `argv` is the filled prefix of the
C array (the terminating NULL sentinel of the C array is implicit in the
list model); flags are C ints used as booleans; the redirection file
pointers are `Option String` (`none` = NULL). -/
structure Command where
  argv : List String
  argc : Nat
  isBgProcess : Bool
  wantsInputR : Bool
  wantsOutputR : Bool
  inRedirFile : Option String
  outRedirFile : Option String
  deriving DecidableEq, Repr

/-- `initCommand`: the default values the struct is given before parsing. -/
def initCommand : Command :=
  { argv := []
    argc := 0
    isBgProcess := false
    wantsInputR := false
    wantsOutputR := false
    inRedirFile := none
    outRedirFile := none }

/-- The token-scanning loop of `getCommand` (lines 135–168 of `smallsh.c`),
over the `strtok` token list. `<` and `>` consume the following token as a
path via `strdup`; when there is no following token, `strtok` returns NULL
and the C code calls `strdup(NULL)` — undefined behavior (a crash on
glibc) — modelled as `none`. `&` sets the background flag; every other
token is appended to `argv`. -/
def parseTokens : List String → Command → Option Command
  | [], acc => some acc
  | t :: rest, acc =>
    if t = "<" then
      match rest with
      | [] => none
      | f :: rest2 =>
          parseTokens rest2 { acc with wantsInputR := true, inRedirFile := some f }
    else if t = ">" then
      match rest with
      | [] => none
      | f :: rest2 =>
          parseTokens rest2 { acc with wantsOutputR := true, outRedirFile := some f }
    else if t = "&" then
      parseTokens rest { acc with isBgProcess := true }
    else
      parseTokens rest { acc with argv := acc.argv ++ [t], argc := acc.argc + 1 }

/-- `getCommand`, at the token level: start from the defaults of
`initCommand` and run the scanning loop. -/
def getCommand (toks : List String) : Option Command :=
  parseTokens toks initCommand

/-- The two signals the program manipulates. -/
inductive Sig where
  | SIGINT : Sig
  | SIGTERM : Sig
  deriving DecidableEq, Repr

/-- A signal disposition: `ign` is `SIG_IGN`, `dfl` is `SIG_DFL`. -/
inductive Disposition where
  | ign : Disposition
  | dfl : Disposition
  deriving DecidableEq, Repr

/-- At process start every handled signal has its default disposition. -/
def defaultSigTable : Sig → Disposition := fun _ => Disposition.dfl

/-- `sigaction(s, ...)` with handler `d`: update one entry of the table. -/
def updateSig (tbl : Sig → Disposition) (s : Sig) (d : Disposition) :
    Sig → Disposition :=
  fun x => if x = s then d else tbl x

/-- The shell's signal table after `main`'s startup code (lines 64–67):
`SIGINT` is set to `SIG_IGN` once, and nothing else is ever changed in the
shell process. -/
def shellSigTable : Sig → Disposition :=
  updateSig defaultSigTable Sig.SIGINT Disposition.ign

/-- The child's signal table (lines 249–259): the table is inherited from
the shell across `fork`; a foreground child (`isBgProcess == 0`) resets
`SIGINT` to `SIG_DFL` before exec, a background child leaves it alone. -/
def childSigTable (cmd : Command) : Sig → Disposition :=
  if cmd.isBgProcess = false then updateSig shellSigTable Sig.SIGINT Disposition.dfl
  else shellSigTable

/-- A decoded `waitpid` status: with flags `0` (or a pid returned under
`WNOHANG`) the status satisfies exactly one of `WIFEXITED` /
`WIFSIGNALED`, carrying `WEXITSTATUS` resp. `WTERMSIG`. -/
inductive WaitSt where
  | exited : Nat → WaitSt
  | signaled : Nat → WaitSt
  deriving DecidableEq, Repr

/-- Externally visible actions of the shell (parent) process, in program
order: writes to stdout / stderr, signal-table updates, the group kill of
`exit`, the two kinds of `waitpid` call, `fork`, `chdir`, and the shell
calling `exit(n)` itself (fork failure). -/
inductive Action where
  | print : String → Action
  | eprint : String → Action
  | sigact : Sig → Disposition → Action
  | killGroup : Sig → Action
  | waitBlock : Nat → Action
  | waitNoHang : Action
  | forkA : Action
  | chdir : Option String → Action
  | shellExit : Nat → Action
  deriving DecidableEq, Repr

/-- The actions of `main`'s startup code before the loop: the one
`sigaction` call installing `SIG_IGN` for `SIGINT`. -/
def mainStartupActions : List Action :=
  [Action.sigact Sig.SIGINT Disposition.ign]

/-- Outside inputs to one `execCommand` call, resolved by the operating
system: the value of `getenv("HOME")`, which `chdir` calls succeed,
whether `fork` succeeds, the pid of the forked child, and the wait status
the blocking foreground `waitpid` reports for that child. -/
structure Env where
  home : Option String
  chdirOk : Option String → Bool
  forkOk : Bool
  pid : Nat
  fgStatus : WaitSt

/-- The parent-side outcome of one `execCommand` call: the value of the
global `ENDSTATE` afterwards, the emitted actions, and the returned
loop-exit flag. -/
structure ExecResult where
  endstate : String
  actions : List Action
  exitCalled : Bool
  deriving DecidableEq, Repr

/-- The non-built-in branch of `execCommand` (lines 242–369), parent side:
fork; on failure report "fork error" and `exit(1)`; in the parent, a
foreground launch blocks in `waitpid(pid, &status, 0)` and decodes the
status into `ENDSTATE` ("exit value N", or "terminated by signal N" which
is also printed immediately); a background launch only prints the child
pid and leaves `ENDSTATE` alone. -/
def launchResult (env : Env) (cmd : Command) (endstate : String) : ExecResult :=
  if env.forkOk then
    if cmd.isBgProcess = false then
      match env.fgStatus with
      | WaitSt.exited n =>
          { endstate := "exit value " ++ toString n
            actions := [Action.forkA, Action.waitBlock env.pid]
            exitCalled := false }
      | WaitSt.signaled n =>
          { endstate := "terminated by signal " ++ toString n
            actions := [Action.forkA, Action.waitBlock env.pid,
                        Action.print ("terminated by signal " ++ toString n)]
            exitCalled := false }
    else
      { endstate := endstate
        actions := [Action.forkA,
                    Action.print ("background pid is " ++ toString env.pid)]
        exitCalled := false }
  else
    { endstate := endstate
      actions := [Action.forkA, Action.eprint "fork error", Action.shellExit 1]
      exitCalled := false }

/-- `execCommand` (lines 184–373), parent side. Blank line (`argv[0] ==
NULL || argc == 0`) and comment lines are no-ops; `exit` sends `SIGTERM`
to the process group and returns 1; `status` prints `ENDSTATE` and resets
it to "exit value 0"; `cd` changes directory (to `HOME` without an
argument) and sets `ENDSTATE` to "exit value 0" or, on failure, "exit
value 1" after reporting to stderr; anything else is launched. -/
def execCommand (env : Env) (cmd : Command) (endstate : String) : ExecResult :=
  if cmd.argv = [] ∨ cmd.argc = 0 then
    { endstate := endstate, actions := [], exitCalled := false }
  else if (cmd.argv.headD "").take 1 = "#" then
    { endstate := endstate, actions := [], exitCalled := false }
  else if cmd.argv.headD "" = "exit" then
    { endstate := endstate
      actions := [Action.killGroup Sig.SIGTERM]
      exitCalled := true }
  else if cmd.argv.headD "" = "status" then
    { endstate := "exit value 0"
      actions := [Action.print endstate]
      exitCalled := false }
  else if cmd.argv.headD "" = "cd" then
    let directory : Option String :=
      match cmd.argv.get? 1 with
      | none => env.home
      | some d => some d
    if env.chdirOk directory then
      { endstate := "exit value 0"
        actions := [Action.chdir directory]
        exitCalled := false }
    else
      { endstate := "exit value 1"
        actions := [Action.chdir directory,
                    Action.eprint "no such file or directory"]
        exitCalled := false }
  else
    launchResult env cmd endstate

/-- `"/dev/null"`, the `DEVNULL` macro. -/
def DEVNULL : String := "/dev/null"

/-- The background branch of the child's setup (lines 262–273): a
background child that wants a redirection but has a NULL path gets
`/dev/null` substituted; a foreground child is left untouched (that branch
only runs `sigaction`). -/
def resolveRedir (cmd : Command) : Command :=
  if cmd.isBgProcess = true then
    { cmd with
      inRedirFile :=
        if cmd.inRedirFile = none ∧ cmd.wantsInputR = true then some DEVNULL
        else cmd.inRedirFile
      outRedirFile :=
        if cmd.outRedirFile = none ∧ cmd.wantsOutputR = true then some DEVNULL
        else cmd.outRedirFile }
  else cmd

/-- Outside inputs to the child's setup: which paths `open` can open for
reading / writing, whether the two `dup2` calls succeed, and which
program names `execvp` can resolve. -/
structure ChildEnv where
  openRead : String → Bool
  openWrite : String → Bool
  dup2InOk : Bool
  dup2OutOk : Bool
  execOk : String → Bool

/-- Where a standard stream of the child points after setup: still at the
inherited terminal, or at an opened file. -/
inductive StreamTarget where
  | terminal : StreamTarget
  | file : String → StreamTarget
  deriving DecidableEq, Repr

/-- The child's two standard streams. -/
structure ChildIO where
  stdinT : StreamTarget
  stdoutT : StreamTarget
  deriving DecidableEq, Repr

/-- How `%s` renders the path argument: glibc prints "(null)" for NULL. -/
def pathStr : Option String → String
  | none => "(null)"
  | some p => p

/-- `open(path, O_RDONLY)` on a possibly-NULL path: a NULL path fails
(`EFAULT`). -/
def openReadFd (env : ChildEnv) : Option String → Bool
  | none => false
  | some p => env.openRead p

/-- `open(path, O_WRONLY | O_CREAT | O_TRUNC, 0644)` on a possibly-NULL
path: a NULL path fails (`EFAULT`). -/
def openWriteFd (env : ChildEnv) : Option String → Bool
  | none => false
  | some p => env.openWrite p

/-- Input redirection in the child (lines 275–299): if requested, open the
path read-only; on failure report "cannot open <path> for input" and
`exit(1)`; then `dup2` onto stdin (failure: "dup2 error", `exit(1)`). -/
def setupInput (env : ChildEnv) (cmd : Command) (io : ChildIO) :
    Except (Nat × String) ChildIO :=
  if cmd.wantsInputR = true then
    if openReadFd env cmd.inRedirFile = true then
      if env.dup2InOk = true then
        Except.ok { io with stdinT := StreamTarget.file (pathStr cmd.inRedirFile) }
      else Except.error (1, "dup2 error")
    else Except.error (1, "cannot open " ++ pathStr cmd.inRedirFile ++ " for input")
  else Except.ok io

/-- Output redirection in the child (lines 301–321): if requested, open the
path for writing (create/truncate); on failure report "cannot open <path>
for output" and `exit(1)`; then `dup2` onto stdout. -/
def setupOutput (env : ChildEnv) (cmd : Command) (io : ChildIO) :
    Except (Nat × String) ChildIO :=
  if cmd.wantsOutputR = true then
    if openWriteFd env cmd.outRedirFile = true then
      if env.dup2OutOk = true then
        Except.ok { io with stdoutT := StreamTarget.file (pathStr cmd.outRedirFile) }
      else Except.error (1, "dup2 error")
    else Except.error (1, "cannot open " ++ pathStr cmd.outRedirFile ++ " for output")
  else Except.ok io

/-- How the child ends its setup: either it `exit`s with a code after
printing one stderr message, or it replaces its image via `execvp`,
carrying its `SIGINT` disposition, the exec'd program and argv, and where
its standard streams point. -/
inductive ChildResult where
  | exited : Nat → String → ChildResult
  | execed : String → List String → Disposition → StreamTarget → StreamTarget →
      ChildResult
  deriving DecidableEq, Repr

/-- The child branch of `execCommand` (`pid == 0`, lines 249–328): signal
setup by role, null-device substitution for background jobs, input then
output redirection, then `execvp(argv[0], argv)`; an unresolvable program
name is reported as "<name>: no such file or directory" and the child
exits with status 1. -/
def childRun (env : ChildEnv) (cmd0 : Command) : ChildResult :=
  let sigint := childSigTable cmd0 Sig.SIGINT
  let cmd := resolveRedir cmd0
  match setupInput env cmd { stdinT := StreamTarget.terminal, stdoutT := StreamTarget.terminal } with
  | Except.error e => ChildResult.exited e.1 e.2
  | Except.ok io1 =>
    match setupOutput env cmd io1 with
    | Except.error e => ChildResult.exited e.1 e.2
    | Except.ok io2 =>
      if env.execOk (cmd.argv.headD "") = true then
        ChildResult.execed (cmd.argv.headD "") cmd.argv sigint io2.stdinT io2.stdoutT
      else
        ChildResult.exited 1 (cmd.argv.headD "" ++ ": no such file or directory")

/-- `cleanUp` (lines 380–398) as a trace over the list of children that
are immediately reapable when it runs: each loop iteration is one
`waitpid(-1, &status, WNOHANG)` call followed by the report for the child
it returned; the final iteration is the nonblocking call that returns 0 or
-1 and ends the loop. -/
def cleanUp : List (Nat × WaitSt) → List Action
  | [] => [Action.waitNoHang]
  | (p, WaitSt.exited n) :: rest =>
      Action.waitNoHang ::
      Action.print ("background pid " ++ toString p ++ " is done: exit value "
        ++ toString n) :: cleanUp rest
  | (p, WaitSt.signaled n) :: rest =>
      Action.waitNoHang ::
      Action.print ("background pid " ++ toString p ++ " is done: terminated by signal "
        ++ toString n) :: cleanUp rest

/-- One iteration of `main`'s loop (lines 69–75), as a trace: `cleanUp`
runs first, then `getCommand` prints the prompt `": "`, then `execCommand`
acts on the parsed command. -/
def shellIterActions (zs : List (Nat × WaitSt)) (env : Env) (cmd : Command)
    (es : String) : List Action :=
  cleanUp zs ++ Action.print ": " :: (execCommand env cmd es).actions

/-- The initial value of the global `ENDSTATE` (line 55). -/
def initialENDSTATE : String := "NULL"

/-- Running a list of (environment, command) pairs through `execCommand`,
threading `ENDSTATE`. -/
def runCmds : List (Env × Command) → String → String
  | [], es => es
  | ec :: rest, es => runCmds rest (execCommand ec.1 ec.2 es).endstate

/-- The claim-side message format of the reaper report. -/
def bgDoneMsg : Nat × WaitSt → String
  | (p, WaitSt.exited n) =>
      "background pid " ++ toString p ++ " is done: exit value " ++ toString n
  | (p, WaitSt.signaled n) =>
      "background pid " ++ toString p ++ " is done: terminated by signal " ++ toString n

/-- The stdout lines of a trace, in order. -/
def printsOf (l : List Action) : List String :=
  l.filterMap fun a =>
    match a with
    | Action.print s => some s
    | _ => none

/-- Whether an action is a blocking wait. -/
def isBlockWait : Action → Bool
  | Action.waitBlock _ => true
  | _ => false

/-- Number of nonblocking `waitpid` probes in a trace. -/
def countWaitNoHang (l : List Action) : Nat :=
  l.countP fun a =>
    match a with
    | Action.waitNoHang => true
    | _ => false

/-- A command line that dispatches to the external-launch branch of
`execCommand`: nonblank, not a comment, and not one of the three
built-ins. -/
def isExternal (cmd : Command) : Prop :=
  cmd.argv ≠ [] ∧ cmd.argc ≠ 0 ∧ (cmd.argv.headD "").take 1 ≠ "#" ∧
  cmd.argv.headD "" ≠ "exit" ∧ cmd.argv.headD "" ≠ "status" ∧ cmd.argv.headD "" ≠ "cd"

instance (cmd : Command) : Decidable (isExternal cmd) := by
  unfold isExternal; infer_instance

/-- A command whose `execCommand` branch leaves `ENDSTATE` untouched:
blank, comment, or an external launch flagged for the background. -/
def noRecordTouch (cmd : Command) : Prop :=
  cmd.argv = [] ∨ cmd.argc = 0 ∨ (cmd.argv.headD "").take 1 = "#" ∨
  (cmd.argv.headD "" ≠ "exit" ∧ cmd.argv.headD "" ≠ "status" ∧
   cmd.argv.headD "" ≠ "cd" ∧ cmd.isBgProcess = true)

instance (cmd : Command) : Decidable (noRecordTouch cmd) := by
  unfold noRecordTouch; infer_instance

/-- Whether the reachable part of a free token scan contains an `&` that is
not consumed as a redirection path (the exact condition under which the
scanning loop of `getCommand` sets `isBgProcess`). -/
def hasFreeAmp : List String → Bool
  | [] => false
  | t :: rest =>
    if t = "<" ∨ t = ">" then
      match rest with
      | [] => false
      | _ :: rest2 => hasFreeAmp rest2
    else if t = "&" then true
    else hasFreeAmp rest

/-- Whether a token sequence has a redirection marker with no following
token (the condition under which `getCommand` reaches `strdup(NULL)`). -/
def danglingRedir : List String → Bool
  | [] => false
  | t :: rest =>
    if t = "<" ∨ t = ">" then
      match rest with
      | [] => true
      | _ :: rest2 => danglingRedir rest2
    else danglingRedir rest

/-! Concrete sample inputs used by the witness theorems. -/

/-- A sample environment: everything succeeds, the forked child has pid 77
and exits normally with status 0. -/
def env0 : Env :=
  { home := some "/home/user"
    chdirOk := fun _ => true
    forkOk := true
    pid := 77
    fgStatus := WaitSt.exited 0 }

/-- `env0`, but the foreground child exits with status 3. -/
def envExit3 : Env := { env0 with fgStatus := WaitSt.exited 3 }

/-- `env0`, but the foreground child is killed by signal 2. -/
def envSig2 : Env := { env0 with fgStatus := WaitSt.signaled 2 }

/-- A child environment where every open/dup2/exec succeeds. -/
def cenvOk : ChildEnv :=
  { openRead := fun _ => true
    openWrite := fun _ => true
    dup2InOk := true
    dup2OutOk := true
    execOk := fun _ => true }

/-- A child environment where no file can be opened for reading. -/
def cenvNoRead : ChildEnv := { cenvOk with openRead := fun _ => false }

/-- A child environment where no file can be opened for writing. -/
def cenvNoWrite : ChildEnv := { cenvOk with openWrite := fun _ => false }

/-- A child environment where `execvp` cannot resolve any program. -/
def cenvNoExec : ChildEnv := { cenvOk with execOk := fun _ => false }

/-- The parsed command of the line `ls`. -/
def fgCmd0 : Command :=
  { initCommand with argv := ["ls"], argc := 1 }

/-- The parsed command of the line `sleep 30 &`. -/
def bgCmd0 : Command :=
  { initCommand with argv := ["sleep", "30"], argc := 2, isBgProcess := true }

/-- A background command that requested output redirection but has a NULL
output path. -/
def bgOutCmd0 : Command :=
  { initCommand with
    argv := ["ls"], argc := 1, isBgProcess := true, wantsOutputR := true }

/-- A foreground command redirecting input from `nofile`. -/
def inCmd0 : Command :=
  { initCommand with
    argv := ["wc"], argc := 1, wantsInputR := true, inRedirFile := some "nofile" }

/-- A foreground command redirecting output to `out.txt`. -/
def outCmd0 : Command :=
  { initCommand with
    argv := ["wc"], argc := 1, wantsOutputR := true, outRedirFile := some "out.txt" }

/-- The parsed command of the line `status`. -/
def statusCmd0 : Command :=
  { initCommand with argv := ["status"], argc := 1 }

/-- The parsed command of the line `exit`. -/
def exitCmd0 : Command :=
  { initCommand with argv := ["exit"], argc := 1 }

/-- The parsed command of a comment line. -/
def commentCmd0 : Command :=
  { initCommand with argv := ["#note"], argc := 1 }

/-- A sample session prefix that runs a blank line, a comment and a
background launch — none of which touch `ENDSTATE`. -/
def inertList0 : List (Env × Command) :=
  [(env0, initCommand), (env0, commentCmd0), (env0, bgCmd0)]

/-! Unfolding lemmas for the token-scanning functions. -/

theorem parseTokens_nil (acc : Command) : parseTokens [] acc = some acc := rfl

theorem parseTokens_in_dangling (acc : Command) : parseTokens ["<"] acc = none := by
  rw [parseTokens.eq_def]; rfl

theorem parseTokens_out_dangling (acc : Command) : parseTokens [">"] acc = none := by
  rw [parseTokens.eq_def]; rfl

theorem parseTokens_in (f : String) (rest2 : List String) (acc : Command) :
    parseTokens ("<" :: f :: rest2) acc =
      parseTokens rest2 { acc with wantsInputR := true, inRedirFile := some f } := by
  rw [parseTokens.eq_def]; rfl

theorem parseTokens_out (f : String) (rest2 : List String) (acc : Command) :
    parseTokens (">" :: f :: rest2) acc =
      parseTokens rest2 { acc with wantsOutputR := true, outRedirFile := some f } := by
  rw [parseTokens.eq_def]; rfl

theorem parseTokens_amp (rest : List String) (acc : Command) :
    parseTokens ("&" :: rest) acc =
      parseTokens rest { acc with isBgProcess := true } := by
  rw [parseTokens.eq_def]; rfl

theorem parseTokens_arg (t : String) (rest : List String) (acc : Command)
    (h1 : t ≠ "<") (h2 : t ≠ ">") (h3 : t ≠ "&") :
    parseTokens (t :: rest) acc =
      parseTokens rest { acc with argv := acc.argv ++ [t], argc := acc.argc + 1 } := by
  rw [parseTokens.eq_def]
  simp [h1, h2, h3]

theorem hasFreeAmp_nil : hasFreeAmp [] = false := rfl

theorem hasFreeAmp_in_dangling : hasFreeAmp ["<"] = false := by
  rw [hasFreeAmp.eq_def]; rfl

theorem hasFreeAmp_out_dangling : hasFreeAmp [">"] = false := by
  rw [hasFreeAmp.eq_def]; rfl

theorem hasFreeAmp_in (f : String) (rest2 : List String) :
    hasFreeAmp ("<" :: f :: rest2) = hasFreeAmp rest2 := by
  rw [hasFreeAmp.eq_def]; rfl

theorem hasFreeAmp_out (f : String) (rest2 : List String) :
    hasFreeAmp (">" :: f :: rest2) = hasFreeAmp rest2 := by
  rw [hasFreeAmp.eq_def]; rfl

theorem hasFreeAmp_amp (rest : List String) : hasFreeAmp ("&" :: rest) = true := by
  rw [hasFreeAmp.eq_def]; rfl

theorem hasFreeAmp_arg (t : String) (rest : List String)
    (h1 : t ≠ "<") (h2 : t ≠ ">") (h3 : t ≠ "&") :
    hasFreeAmp (t :: rest) = hasFreeAmp rest := by
  rw [hasFreeAmp.eq_def]
  simp [h1, h2, h3]

theorem danglingRedir_nil : danglingRedir [] = false := rfl

theorem danglingRedir_in_dangling : danglingRedir ["<"] = true := by
  rw [danglingRedir.eq_def]; rfl

theorem danglingRedir_out_dangling : danglingRedir [">"] = true := by
  rw [danglingRedir.eq_def]; rfl

theorem danglingRedir_in (f : String) (rest2 : List String) :
    danglingRedir ("<" :: f :: rest2) = danglingRedir rest2 := by
  rw [danglingRedir.eq_def]; rfl

theorem danglingRedir_out (f : String) (rest2 : List String) :
    danglingRedir (">" :: f :: rest2) = danglingRedir rest2 := by
  rw [danglingRedir.eq_def]; rfl

theorem danglingRedir_arg (t : String) (rest : List String)
    (h1 : t ≠ "<") (h2 : t ≠ ">") :
    danglingRedir (t :: rest) = danglingRedir rest := by
  rw [danglingRedir.eq_def]
  simp [h1, h2]

/-! Invariants of the token-scanning loop. -/

/-- The scanning loop sets the background flag exactly when it meets an
`&` token that is not consumed as a redirection path. -/
theorem parse_isBg (toks : List String) (acc c : Command)
    (h : parseTokens toks acc = some c) :
    c.isBgProcess = (acc.isBgProcess || hasFreeAmp toks) := by
  induction toks, acc using parseTokens.induct generalizing c with
  | case1 acc =>
      rw [parseTokens_nil] at h
      cases h; simp [hasFreeAmp_nil]
  | case2 acc =>
      rw [parseTokens_in_dangling] at h; cases h
  | case3 acc f rest2 ih =>
      rw [parseTokens_in] at h
      rw [hasFreeAmp_in]
      exact ih c h
  | case4 acc hne =>
      rw [parseTokens_out_dangling] at h; cases h
  | case5 acc f rest2 hne ih =>
      rw [parseTokens_out] at h
      rw [hasFreeAmp_out]
      exact ih c h
  | case6 rest acc h1 h2 ih =>
      rw [parseTokens_amp] at h
      rw [hasFreeAmp_amp]
      simp [ih c h]
  | case7 t rest acc h1 h2 h3 ih =>
      rw [parseTokens_arg t rest acc h1 h2 h3] at h
      rw [hasFreeAmp_arg t rest h1 h2 h3]
      exact ih c h

/-- The scanning loop never appends an `&` token to the argument array. -/
theorem parse_no_amp_arg (toks : List String) (acc c : Command)
    (h : parseTokens toks acc = some c) (hacc : "&" ∉ acc.argv) :
    "&" ∉ c.argv := by
  induction toks, acc using parseTokens.induct generalizing c with
  | case1 acc =>
      rw [parseTokens_nil] at h
      cases h; exact hacc
  | case2 acc =>
      rw [parseTokens_in_dangling] at h; cases h
  | case3 acc f rest2 ih =>
      rw [parseTokens_in] at h
      exact ih c h hacc
  | case4 acc hne =>
      rw [parseTokens_out_dangling] at h; cases h
  | case5 acc f rest2 hne ih =>
      rw [parseTokens_out] at h
      exact ih c h hacc
  | case6 rest acc h1 h2 ih =>
      rw [parseTokens_amp] at h
      exact ih c h hacc
  | case7 t rest acc h1 h2 h3 ih =>
      rw [parseTokens_arg t rest acc h1 h2 h3] at h
      refine ih c h ?_
      simp only [List.mem_append, List.mem_singleton]
      rintro (hmem | rfl)
      · exact hacc hmem
      · exact h3 rfl

/-- The scanning loop fails (reaches `strdup(NULL)`) exactly on token
sequences with a dangling redirection marker. -/
theorem parse_none_iff (toks : List String) (acc : Command) :
    parseTokens toks acc = none ↔ danglingRedir toks = true := by
  induction toks, acc using parseTokens.induct with
  | case1 acc =>
      simp [parseTokens_nil, danglingRedir_nil]
  | case2 acc =>
      simp [parseTokens_in_dangling, danglingRedir_in_dangling]
  | case3 acc f rest2 ih =>
      rw [parseTokens_in, danglingRedir_in]
      exact ih
  | case4 acc hne =>
      simp [parseTokens_out_dangling, danglingRedir_out_dangling]
  | case5 acc f rest2 hne ih =>
      rw [parseTokens_out, danglingRedir_out]
      exact ih
  | case6 rest acc h1 h2 ih =>
      rw [parseTokens_amp, danglingRedir_arg "&" rest h1 h2]
      exact ih
  | case7 t rest acc h1 h2 h3 ih =>
      rw [parseTokens_arg t rest acc h1 h2 h3, danglingRedir_arg t rest h1 h2]
      exact ih

/-- When the scan succeeds, a set input-redirection flag always comes with
a non-NULL input path. -/
theorem parse_in_some (toks : List String) (acc c : Command)
    (h : parseTokens toks acc = some c)
    (hacc : acc.wantsInputR = true → acc.inRedirFile ≠ none) :
    c.wantsInputR = true → c.inRedirFile ≠ none := by
  induction toks, acc using parseTokens.induct generalizing c with
  | case1 acc =>
      rw [parseTokens_nil] at h
      cases h; exact hacc
  | case2 acc =>
      rw [parseTokens_in_dangling] at h; cases h
  | case3 acc f rest2 ih =>
      rw [parseTokens_in] at h
      exact ih c h (by intro _; simp)
  | case4 acc hne =>
      rw [parseTokens_out_dangling] at h; cases h
  | case5 acc f rest2 hne ih =>
      rw [parseTokens_out] at h
      exact ih c h hacc
  | case6 rest acc h1 h2 ih =>
      rw [parseTokens_amp] at h
      exact ih c h hacc
  | case7 t rest acc h1 h2 h3 ih =>
      rw [parseTokens_arg t rest acc h1 h2 h3] at h
      exact ih c h hacc

/-! Unfolding lemmas for the launch branch. -/

theorem launchResult_fg_exited (env : Env) (cmd : Command) (es : String) (n : Nat)
    (hf : env.forkOk = true) (hbg : cmd.isBgProcess = false)
    (hst : env.fgStatus = WaitSt.exited n) :
    launchResult env cmd es =
      { endstate := "exit value " ++ toString n
        actions := [Action.forkA, Action.waitBlock env.pid]
        exitCalled := false } := by
  unfold launchResult
  rw [hst]
  simp [hf, hbg]

theorem launchResult_fg_signaled (env : Env) (cmd : Command) (es : String) (n : Nat)
    (hf : env.forkOk = true) (hbg : cmd.isBgProcess = false)
    (hst : env.fgStatus = WaitSt.signaled n) :
    launchResult env cmd es =
      { endstate := "terminated by signal " ++ toString n
        actions := [Action.forkA, Action.waitBlock env.pid,
                    Action.print ("terminated by signal " ++ toString n)]
        exitCalled := false } := by
  unfold launchResult
  rw [hst]
  simp [hf, hbg]

theorem launchResult_bg (env : Env) (cmd : Command) (es : String)
    (hf : env.forkOk = true) (hbg : cmd.isBgProcess = true) :
    launchResult env cmd es =
      { endstate := es
        actions := [Action.forkA,
                    Action.print ("background pid is " ++ toString env.pid)]
        exitCalled := false } := by
  unfold launchResult
  simp [hf, hbg]

theorem launchResult_forkFail (env : Env) (cmd : Command) (es : String)
    (hf : env.forkOk = false) :
    launchResult env cmd es =
      { endstate := es
        actions := [Action.forkA, Action.eprint "fork error", Action.shellExit 1]
        exitCalled := false } := by
  unfold launchResult
  simp [hf]

/-- An external command line falls through every built-in test into the
launch branch. -/
theorem exec_external (env : Env) (cmd : Command) (es : String)
    (h : isExternal cmd) :
    execCommand env cmd es = launchResult env cmd es := by
  obtain ⟨h1, h2, h3, h4, h5, h6⟩ := h
  unfold execCommand
  rw [if_neg (by simp [h1, h2]), if_neg h3, if_neg h4, if_neg h5, if_neg h6]

/-- Blank lines, comments, and background launches leave `ENDSTATE`
untouched. -/
theorem noRecordTouch_endstate (env : Env) (cmd : Command) (es : String)
    (h : noRecordTouch cmd) :
    (execCommand env cmd es).endstate = es := by
  by_cases hb : cmd.argv = [] ∨ cmd.argc = 0
  · unfold execCommand
    rw [if_pos hb]
  · by_cases hc : (cmd.argv.headD "").take 1 = "#"
    · unfold execCommand
      rw [if_neg hb, if_pos hc]
    · rcases h with h | h | h | ⟨h4, h5, h6, hbg⟩
      · exact absurd (Or.inl h) hb
      · exact absurd (Or.inr h) hb
      · exact absurd h hc
      · rw [exec_external env cmd es ⟨fun he => hb (Or.inl he),
          fun he => hb (Or.inr he), hc, h4, h5, h6⟩]
        by_cases hf : env.forkOk = true
        · rw [launchResult_bg env cmd es hf hbg]
        · rw [launchResult_forkFail env cmd es (by simpa using hf)]

/-! Lemmas about the reaper trace. -/

/-- Every action `cleanUp` emits is a nonblocking probe or a report. -/
theorem cleanUp_shape (zs : List (Nat × WaitSt)) :
    ∀ a ∈ cleanUp zs, a = Action.waitNoHang ∨ ∃ s, a = Action.print s := by
  induction zs with
  | nil =>
      intro a ha
      simp [cleanUp] at ha
      exact Or.inl ha
  | cons z rest ih =>
      obtain ⟨p, st⟩ := z
      cases st with
      | exited n =>
          intro a ha
          simp only [cleanUp, List.mem_cons] at ha
          rcases ha with rfl | rfl | ha
          · exact Or.inl rfl
          · exact Or.inr ⟨_, rfl⟩
          · exact ih a ha
      | signaled n =>
          intro a ha
          simp only [cleanUp, List.mem_cons] at ha
          rcases ha with rfl | rfl | ha
          · exact Or.inl rfl
          · exact Or.inr ⟨_, rfl⟩
          · exact ih a ha

/-- The reports `cleanUp` prints, in order: one per immediately reapable
child, in the claim's format. -/
theorem printsOf_cleanUp (zs : List (Nat × WaitSt)) :
    printsOf (cleanUp zs) = zs.map bgDoneMsg := by
  induction zs with
  | nil => rfl
  | cons z rest ih =>
      obtain ⟨p, st⟩ := z
      cases st <;> simp only [cleanUp, printsOf, List.filterMap_cons] at ih ⊢ <;>
        rw [ih] <;> rfl

/-- `cleanUp` performs exactly one nonblocking probe per reapable child,
plus the final probe that comes back empty and stops the loop. -/
theorem countWaitNoHang_cleanUp (zs : List (Nat × WaitSt)) :
    countWaitNoHang (cleanUp zs) = zs.length + 1 := by
  induction zs with
  | nil => rfl
  | cons z rest ih =>
      obtain ⟨p, st⟩ := z
      cases st <;>
        simp only [cleanUp, countWaitNoHang, List.countP_cons] at ih ⊢ <;>
        simp [ih]

/-! Lemmas about the null-device substitution. -/

theorem resolveRedir_argv (cmd : Command) : (resolveRedir cmd).argv = cmd.argv := by
  unfold resolveRedir
  split_ifs <;> rfl

theorem resolveRedir_wantsIn (cmd : Command) :
    (resolveRedir cmd).wantsInputR = cmd.wantsInputR := by
  unfold resolveRedir
  split_ifs <;> rfl

theorem resolveRedir_wantsOut (cmd : Command) :
    (resolveRedir cmd).wantsOutputR = cmd.wantsOutputR := by
  unfold resolveRedir
  split_ifs <;> rfl

theorem resolveRedir_in_some (cmd : Command) (p : String)
    (h : cmd.inRedirFile = some p) : (resolveRedir cmd).inRedirFile = some p := by
  unfold resolveRedir
  split_ifs <;> simp_all

theorem resolveRedir_out_some (cmd : Command) (q : String)
    (h : cmd.outRedirFile = some q) : (resolveRedir cmd).outRedirFile = some q := by
  unfold resolveRedir
  split_ifs <;> simp_all

/-- When the scan succeeds, a set output-redirection flag always comes
with a non-NULL output path. -/
theorem parse_out_some (toks : List String) (acc c : Command)
    (h : parseTokens toks acc = some c)
    (hacc : acc.wantsOutputR = true → acc.outRedirFile ≠ none) :
    c.wantsOutputR = true → c.outRedirFile ≠ none := by
  induction toks, acc using parseTokens.induct generalizing c with
  | case1 acc =>
      rw [parseTokens_nil] at h
      cases h; exact hacc
  | case2 acc =>
      rw [parseTokens_in_dangling] at h; cases h
  | case3 acc f rest2 ih =>
      rw [parseTokens_in] at h
      exact ih c h hacc
  | case4 acc hne =>
      rw [parseTokens_out_dangling] at h; cases h
  | case5 acc f rest2 hne ih =>
      rw [parseTokens_out] at h
      exact ih c h (by intro _; simp)
  | case6 rest acc h1 h2 ih =>
      rw [parseTokens_amp] at h
      exact ih c h hacc
  | case7 t rest acc h1 h2 h3 ih =>
      rw [parseTokens_arg t rest acc h1 h2 h3] at h
      exact ih c h hacc

/-! Lemmas about session runs. -/

theorem runCmds_nil (es : String) : runCmds [] es = es := rfl

theorem runCmds_cons (ec : Env × Command) (rest : List (Env × Command))
    (es : String) :
    runCmds (ec :: rest) es = runCmds rest (execCommand ec.1 ec.2 es).endstate := by
  rw [runCmds.eq_def]

/-- Commands that never touch `ENDSTATE` leave a whole session's record
where it started. -/
theorem runCmds_preserve (l : List (Env × Command)) (es : String)
    (h : ∀ ec ∈ l, noRecordTouch ec.2) : runCmds l es = es := by
  induction l generalizing es with
  | nil => rfl
  | cons ec rest ih =>
      rw [runCmds_cons,
        noRecordTouch_endstate ec.1 ec.2 es (h ec (List.mem_cons_self ec rest))]
      exact ih es fun x hx => h x (List.mem_cons_of_mem ec hx)

/-- Every action `execCommand` emits, classified; in particular the only
blocking wait ever emitted targets the pid just forked, and only for a
foreground launch, and no `sigaction` call happens in the shell process
after startup. -/
theorem exec_action_shape (env : Env) (cmd : Command) (es : String) :
    ∀ a ∈ (execCommand env cmd es).actions,
      a = Action.killGroup Sig.SIGTERM ∨ (∃ s, a = Action.print s) ∨
      (∃ s, a = Action.eprint s) ∨ (∃ d, a = Action.chdir d) ∨
      a = Action.forkA ∨ a = Action.shellExit 1 ∨
      (a = Action.waitBlock env.pid ∧ cmd.isBgProcess = false) := by
  intro a ha
  by_cases h1 : cmd.argv = [] ∨ cmd.argc = 0
  · unfold execCommand at ha
    rw [if_pos h1] at ha
    simp at ha
  by_cases h2 : (cmd.argv.headD "").take 1 = "#"
  · unfold execCommand at ha
    rw [if_neg h1, if_pos h2] at ha
    simp at ha
  by_cases h3 : cmd.argv.headD "" = "exit"
  · unfold execCommand at ha
    rw [if_neg h1, if_neg h2, if_pos h3] at ha
    simp at ha
    exact Or.inl ha
  by_cases h4 : cmd.argv.headD "" = "status"
  · unfold execCommand at ha
    rw [if_neg h1, if_neg h2, if_neg h3, if_pos h4] at ha
    simp at ha
    exact Or.inr (Or.inl ⟨es, ha⟩)
  by_cases h5 : cmd.argv.headD "" = "cd"
  · unfold execCommand at ha
    rw [if_neg h1, if_neg h2, if_neg h3, if_neg h4, if_pos h5] at ha
    dsimp only at ha
    split_ifs at ha <;> simp at ha
    · exact Or.inr (Or.inr (Or.inr (Or.inl ⟨_, ha⟩)))
    · rcases ha with rfl | rfl
      · exact Or.inr (Or.inr (Or.inr (Or.inl ⟨_, rfl⟩)))
      · exact Or.inr (Or.inr (Or.inl ⟨_, rfl⟩))
  have hext : isExternal cmd :=
    ⟨fun he => h1 (Or.inl he), fun he => h1 (Or.inr he), h2, h3, h4, h5⟩
  rw [exec_external env cmd es hext] at ha
  by_cases hf : env.forkOk = true
  · by_cases hbg : cmd.isBgProcess = false
    · cases hst : env.fgStatus with
      | exited n =>
          rw [launchResult_fg_exited env cmd es n hf hbg hst] at ha
          simp at ha
          rcases ha with rfl | rfl
          · exact Or.inr (Or.inr (Or.inr (Or.inr (Or.inl rfl))))
          · exact Or.inr (Or.inr (Or.inr (Or.inr (Or.inr (Or.inr ⟨rfl, hbg⟩)))))
      | signaled n =>
          rw [launchResult_fg_signaled env cmd es n hf hbg hst] at ha
          simp at ha
          rcases ha with rfl | rfl | rfl
          · exact Or.inr (Or.inr (Or.inr (Or.inr (Or.inl rfl))))
          · exact Or.inr (Or.inr (Or.inr (Or.inr (Or.inr (Or.inr ⟨rfl, hbg⟩)))))
          · exact Or.inr (Or.inl ⟨_, rfl⟩)
    · rw [launchResult_bg env cmd es hf (by simpa using hbg)] at ha
      simp at ha
      rcases ha with rfl | rfl
      · exact Or.inr (Or.inr (Or.inr (Or.inr (Or.inl rfl))))
      · exact Or.inr (Or.inl ⟨_, rfl⟩)
  · rw [launchResult_forkFail env cmd es (by simpa using hf)] at ha
    simp at ha
    rcases ha with rfl | rfl | rfl
    · exact Or.inr (Or.inr (Or.inr (Or.inr (Or.inl rfl))))
    · exact Or.inr (Or.inr (Or.inl ⟨_, rfl⟩))
    · exact Or.inr (Or.inr (Or.inr (Or.inr (Or.inr (Or.inl rfl)))))

/-! Lemmas about the child branch. -/

/-- Whatever the child execs, it execs with the signal disposition the
child branch installed for its role. -/
theorem childRun_execed_sig (cenv : ChildEnv) (cmd : Command)
    (p : String) (az : List String) (sg : Disposition) (si so : StreamTarget)
    (h : childRun cenv cmd = ChildResult.execed p az sg si so) :
    sg = childSigTable cmd Sig.SIGINT := by
  unfold childRun at h
  dsimp only at h
  rcases hin : setupInput cenv (resolveRedir cmd)
      { stdinT := StreamTarget.terminal, stdoutT := StreamTarget.terminal } with e | io1
  · rw [hin] at h
    simp at h
  · rw [hin] at h
    dsimp only at h
    rcases hout : setupOutput cenv (resolveRedir cmd) io1 with e | io2
    · rw [hout] at h
      simp at h
    · rw [hout] at h
      split_ifs at h
      simp at h
      exact h.2.2.1.symm

/-- A requested input redirection whose file cannot be opened makes the
child report "cannot open <path> for input" and exit with status 1. -/
theorem childRun_inputFail (cenv : ChildEnv) (cmd : Command) (p : String)
    (hwi : cmd.wantsInputR = true) (hpath : cmd.inRedirFile = some p)
    (hopen : cenv.openRead p = false) :
    childRun cenv cmd = ChildResult.exited 1 ("cannot open " ++ p ++ " for input") := by
  have hw : (resolveRedir cmd).wantsInputR = true := by
    rw [resolveRedir_wantsIn]; exact hwi
  have hin : (resolveRedir cmd).inRedirFile = some p := resolveRedir_in_some cmd p hpath
  unfold childRun
  dsimp only
  rw [show setupInput cenv (resolveRedir cmd)
      { stdinT := StreamTarget.terminal, stdoutT := StreamTarget.terminal } =
      Except.error (1, "cannot open " ++ p ++ " for input") from ?_]
  · unfold setupInput
    rw [hw, if_pos rfl, hin]
    simp [openReadFd, hopen, pathStr]

/-- When no input redirection was requested, a requested output
redirection whose file cannot be opened makes the child report
"cannot open <path> for output" and exit with status 1. -/
theorem childRun_outputFail (cenv : ChildEnv) (cmd : Command) (q : String)
    (hwi : cmd.wantsInputR = false) (hwo : cmd.wantsOutputR = true)
    (hpath : cmd.outRedirFile = some q) (hopen : cenv.openWrite q = false) :
    childRun cenv cmd = ChildResult.exited 1 ("cannot open " ++ q ++ " for output") := by
  have hw : (resolveRedir cmd).wantsInputR = false := by
    rw [resolveRedir_wantsIn]; exact hwi
  have hwo' : (resolveRedir cmd).wantsOutputR = true := by
    rw [resolveRedir_wantsOut]; exact hwo
  have hout : (resolveRedir cmd).outRedirFile = some q := resolveRedir_out_some cmd q hpath
  unfold childRun
  dsimp only
  rw [show setupInput cenv (resolveRedir cmd)
      { stdinT := StreamTarget.terminal, stdoutT := StreamTarget.terminal } =
      Except.ok { stdinT := StreamTarget.terminal, stdoutT := StreamTarget.terminal } from ?_]
  · dsimp only
    rw [show setupOutput cenv (resolveRedir cmd)
        { stdinT := StreamTarget.terminal, stdoutT := StreamTarget.terminal } =
        Except.error (1, "cannot open " ++ q ++ " for output") from ?_]
    unfold setupOutput
    rw [hwo', if_pos rfl, hout]
    simp [openWriteFd, hopen, pathStr]
  · unfold setupInput
    rw [hw]
    simp

/-- When no redirection was requested at all, an unresolvable program name
makes the child report "<name>: no such file or directory" and exit with
status 1. -/
theorem childRun_execFail (cenv : ChildEnv) (cmd : Command)
    (hwi : cmd.wantsInputR = false) (hwo : cmd.wantsOutputR = false)
    (hx : cenv.execOk (cmd.argv.headD "") = false) :
    childRun cenv cmd =
      ChildResult.exited 1 (cmd.argv.headD "" ++ ": no such file or directory") := by
  have hw : (resolveRedir cmd).wantsInputR = false := by
    rw [resolveRedir_wantsIn]; exact hwi
  have hwo' : (resolveRedir cmd).wantsOutputR = false := by
    rw [resolveRedir_wantsOut]; exact hwo
  have hargv : (resolveRedir cmd).argv = cmd.argv := resolveRedir_argv cmd
  unfold childRun
  dsimp only
  rw [show setupInput cenv (resolveRedir cmd)
      { stdinT := StreamTarget.terminal, stdoutT := StreamTarget.terminal } =
      Except.ok { stdinT := StreamTarget.terminal, stdoutT := StreamTarget.terminal } from ?_]
  · dsimp only
    rw [show setupOutput cenv (resolveRedir cmd)
        { stdinT := StreamTarget.terminal, stdoutT := StreamTarget.terminal } =
        Except.ok { stdinT := StreamTarget.terminal, stdoutT := StreamTarget.terminal } from ?_]
    · rw [hargv]
      simpa using hx
    · unfold setupOutput
      rw [hwo']
      simp
  · unfold setupInput
    rw [hw]
    simp

/-- A background child that wants output redirection with a NULL path and
no input redirection, in an environment where the null device opens,
`dup2` works and the program resolves, execs with its stdout bound to
`/dev/null`. -/
theorem childRun_bg_devnull_out (cenv : ChildEnv) (cmd : Command)
    (hbg : cmd.isBgProcess = true) (hwi : cmd.wantsInputR = false)
    (hwo : cmd.wantsOutputR = true) (hpath : cmd.outRedirFile = none)
    (hopen : cenv.openWrite DEVNULL = true) (hdup : cenv.dup2OutOk = true)
    (hx : cenv.execOk (cmd.argv.headD "") = true) :
    childRun cenv cmd =
      ChildResult.execed (cmd.argv.headD "") cmd.argv
        (childSigTable cmd Sig.SIGINT) StreamTarget.terminal
        (StreamTarget.file DEVNULL) := by
  have hw : (resolveRedir cmd).wantsInputR = false := by
    rw [resolveRedir_wantsIn]; exact hwi
  have hwo' : (resolveRedir cmd).wantsOutputR = true := by
    rw [resolveRedir_wantsOut]; exact hwo
  have hout : (resolveRedir cmd).outRedirFile = some DEVNULL := by
    unfold resolveRedir
    rw [if_pos hbg]
    simp [hpath, hwo]
  have hargv : (resolveRedir cmd).argv = cmd.argv := resolveRedir_argv cmd
  unfold childRun
  dsimp only
  rw [show setupInput cenv (resolveRedir cmd)
      { stdinT := StreamTarget.terminal, stdoutT := StreamTarget.terminal } =
      Except.ok { stdinT := StreamTarget.terminal, stdoutT := StreamTarget.terminal } from ?_]
  · dsimp only
    rw [show setupOutput cenv (resolveRedir cmd)
        { stdinT := StreamTarget.terminal, stdoutT := StreamTarget.terminal } =
        Except.ok { stdinT := StreamTarget.terminal,
                    stdoutT := StreamTarget.file DEVNULL } from ?_]
    · rw [hargv]
      simpa using hx
    · unfold setupOutput
      rw [hwo', if_pos rfl, hout]
      simp [openWriteFd, hopen, hdup, pathStr]
  · unfold setupInput
    rw [hw]
    simp

/-- Every branch of the launch leaves the loop-exit flag clear: a child's
failure never stops the parent's loop. -/
theorem launchResult_exitCalled (env : Env) (cmd : Command) (es : String) :
    (launchResult env cmd es).exitCalled = false := by
  unfold launchResult
  split_ifs
  · cases env.fgStatus <;> rfl
  · rfl
  · rfl

/-! The claims. -/

/-- Claim C1: the shell ignores `SIGINT` for the whole session (set once at
startup and never changed by the parent-side loop); a foreground child
resets `SIGINT` to the default disposition after fork and before exec; a
background child keeps the inherited ignore disposition; for every launch
exactly one of the two dispositions is installed in the child, according
to its role, and it is the one the child execs with. -/
theorem c1_signal_policy_asymmetry (cmd : Command) (cenv : ChildEnv)
    (zs : List (Nat × WaitSt)) (env : Env) (es : String) :
    shellSigTable Sig.SIGINT = Disposition.ign ∧
    (cmd.isBgProcess = false → childSigTable cmd Sig.SIGINT = Disposition.dfl) ∧
    (cmd.isBgProcess = true →
      childSigTable cmd Sig.SIGINT = shellSigTable Sig.SIGINT ∧
      childSigTable cmd Sig.SIGINT = Disposition.ign) ∧
    ((childSigTable cmd Sig.SIGINT = Disposition.dfl ∧
        childSigTable cmd Sig.SIGINT ≠ Disposition.ign) ∨
     (childSigTable cmd Sig.SIGINT = Disposition.ign ∧
        childSigTable cmd Sig.SIGINT ≠ Disposition.dfl)) ∧
    (∀ p az sg si so, childRun cenv cmd = ChildResult.execed p az sg si so →
      sg = childSigTable cmd Sig.SIGINT) ∧
    (∀ a ∈ shellIterActions zs env cmd es, ∀ s d, a ≠ Action.sigact s d) := by
  refine ⟨rfl, ?_, ?_, ?_, ?_, ?_⟩
  · intro hbg
    unfold childSigTable
    rw [if_pos hbg]
    rfl
  · intro hbg
    unfold childSigTable
    rw [if_neg (by simp [hbg])]
    exact ⟨rfl, rfl⟩
  · by_cases hbg : cmd.isBgProcess = false
    · left
      unfold childSigTable
      rw [if_pos hbg]
      exact ⟨rfl, by decide⟩
    · right
      unfold childSigTable
      rw [if_neg hbg]
      exact ⟨rfl, by decide⟩
  · exact fun p az sg si so h => childRun_execed_sig cenv cmd p az sg si so h
  · intro a ha s d
    unfold shellIterActions at ha
    rcases List.mem_append.mp ha with hc | hrest
    · rcases cleanUp_shape zs a hc with rfl | ⟨t, rfl⟩ <;> simp
    · rcases List.mem_cons.mp hrest with rfl | hex
      · simp
      · rcases exec_action_shape env cmd es a hex with rfl | ⟨t, rfl⟩ | ⟨t, rfl⟩ |
          ⟨t, rfl⟩ | rfl | rfl | ⟨rfl, hbg⟩ <;> simp

/-- Witness for C1 at concrete commands: the foreground launch of `ls`
gets the default disposition, the background launch of `sleep 30 &` keeps
the ignore disposition. -/
theorem c1_signal_policy_asymmetry_w :
    childSigTable fgCmd0 Sig.SIGINT = Disposition.dfl ∧
    childSigTable bgCmd0 Sig.SIGINT = Disposition.ign := by
  constructor
  · exact (c1_signal_policy_asymmetry fgCmd0 cenvOk [] env0 "NULL").2.1 rfl
  · exact ((c1_signal_policy_asymmetry bgCmd0 cenvOk [] env0 "NULL").2.2.1 rfl).2

/-- Claim C2 (code side): on `exit` the shell emits `kill(0, SIGTERM)` —
a terminate signal to its whole process group — and returns the loop-stop
flag. The second conjunct records why the spec's "the shell itself exits
with code 0" fails in reality: the shell never changed its own `SIGTERM`
disposition (only `SIGINT` was set to ignore), so the group-wide `SIGTERM`
it just sent also terminates the shell itself, by signal 15, before
`main` can return 0. -/
theorem c2_exit_kill_group (env : Env) (es : String) :
    execCommand env exitCmd0 es =
      { endstate := es
        actions := [Action.killGroup Sig.SIGTERM]
        exitCalled := true } ∧
    shellSigTable Sig.SIGTERM = Disposition.dfl :=
  ⟨rfl, rfl⟩

/-- Claim C3: `status` prints the current `ENDSTATE` and then resets it to
"exit value 0"; hence from any session state, a second `status` with no
intervening command prints "exit value 0". -/
theorem c3_status_read_reset (envA envB : Env) (es : String) :
    execCommand envA statusCmd0 es =
      { endstate := "exit value 0"
        actions := [Action.print es]
        exitCalled := false } ∧
    execCommand envB statusCmd0 (execCommand envA statusCmd0 es).endstate =
      { endstate := "exit value 0"
        actions := [Action.print "exit value 0"]
        exitCalled := false } :=
  ⟨rfl, rfl⟩

/-- Claim C4: a foreground launch blocks in a wait on exactly the forked
child's pid and records the decoded status — "exit value N" on a normal
exit (recorded, not printed), "terminated by signal N" on a signal death
(recorded and printed immediately); a background launch leaves the record
unchanged and only prints the child's pid. -/
theorem c4_foreground_wait (env : Env) (cmd : Command) (es : String) (n : Nat)
    (hext : isExternal cmd) (hfork : env.forkOk = true) :
    (cmd.isBgProcess = false → env.fgStatus = WaitSt.exited n →
      execCommand env cmd es =
        { endstate := "exit value " ++ toString n
          actions := [Action.forkA, Action.waitBlock env.pid]
          exitCalled := false }) ∧
    (cmd.isBgProcess = false → env.fgStatus = WaitSt.signaled n →
      execCommand env cmd es =
        { endstate := "terminated by signal " ++ toString n
          actions := [Action.forkA, Action.waitBlock env.pid,
                      Action.print ("terminated by signal " ++ toString n)]
          exitCalled := false }) ∧
    (cmd.isBgProcess = true →
      execCommand env cmd es =
        { endstate := es
          actions := [Action.forkA,
                      Action.print ("background pid is " ++ toString env.pid)]
          exitCalled := false }) := by
  refine ⟨?_, ?_, ?_⟩
  · intro hbg hst
    rw [exec_external env cmd es hext, launchResult_fg_exited env cmd es n hfork hbg hst]
  · intro hbg hst
    rw [exec_external env cmd es hext,
      launchResult_fg_signaled env cmd es n hfork hbg hst]
  · intro hbg
    rw [exec_external env cmd es hext, launchResult_bg env cmd es hfork hbg]

/-- Witness for C4: `ls` exiting with 3, `ls` killed by signal 2, and
`sleep 30 &` in the background. -/
theorem c4_foreground_wait_w :
    execCommand envExit3 fgCmd0 "NULL" =
      { endstate := "exit value " ++ toString 3
        actions := [Action.forkA, Action.waitBlock envExit3.pid]
        exitCalled := false } ∧
    execCommand envSig2 fgCmd0 "NULL" =
      { endstate := "terminated by signal " ++ toString 2
        actions := [Action.forkA, Action.waitBlock envSig2.pid,
                    Action.print ("terminated by signal " ++ toString 2)]
        exitCalled := false } ∧
    execCommand env0 bgCmd0 "NULL" =
      { endstate := "NULL"
        actions := [Action.forkA,
                    Action.print ("background pid is " ++ toString env0.pid)]
        exitCalled := false } :=
  ⟨(c4_foreground_wait envExit3 fgCmd0 "NULL" 3 (by decide) rfl).1 rfl rfl,
   (c4_foreground_wait envSig2 fgCmd0 "NULL" 2 (by decide) rfl).2.1 rfl rfl,
   (c4_foreground_wait env0 bgCmd0 "NULL" 0 (by decide) rfl).2.2 rfl⟩

/-- Claim C5: the reaper never blocks (every wait it performs is a
nonblocking probe), it reports each immediately reapable child in the
claimed format and stops on the first empty probe; across a whole
interpreter iteration the only blocking wait that can occur targets the
foreground child's pid, and the reaper runs before the prompt. -/
theorem c5_reaper_nonblocking (zs : List (Nat × WaitSt)) (env : Env)
    (cmd : Command) (es : String) :
    (∀ a ∈ cleanUp zs, isBlockWait a = false) ∧
    printsOf (cleanUp zs) = zs.map bgDoneMsg ∧
    countWaitNoHang (cleanUp zs) = zs.length + 1 ∧
    (∀ p, Action.waitBlock p ∈ shellIterActions zs env cmd es →
      p = env.pid ∧ cmd.isBgProcess = false) ∧
    (∃ rest, shellIterActions zs env cmd es =
      cleanUp zs ++ Action.print ": " :: rest) := by
  refine ⟨?_, printsOf_cleanUp zs, countWaitNoHang_cleanUp zs, ?_,
    ⟨(execCommand env cmd es).actions, rfl⟩⟩
  · intro a ha
    rcases cleanUp_shape zs a ha with rfl | ⟨t, rfl⟩ <;> rfl
  · intro p hp
    unfold shellIterActions at hp
    rcases List.mem_append.mp hp with hc | hrest
    · rcases cleanUp_shape zs (Action.waitBlock p) hc with h | ⟨t, h⟩ <;> simp at h
    · rcases List.mem_cons.mp hrest with h | hex
      · simp at h
      · rcases exec_action_shape env cmd es (Action.waitBlock p) hex with h | ⟨t, h⟩ |
          ⟨t, h⟩ | ⟨t, h⟩ | h | h | ⟨h, hbg⟩
        · exact absurd h (by simp)
        · exact absurd h (by simp)
        · exact absurd h (by simp)
        · exact absurd h (by simp)
        · exact absurd h (by simp)
        · exact absurd h (by simp)
        · exact ⟨Action.waitBlock.inj h, hbg⟩

/-- Witness for C5 at a concrete zombie list, also discharging the
membership hypothesis of the first conjunct at the final empty probe. -/
theorem c5_reaper_nonblocking_w :
    printsOf (cleanUp [(7, WaitSt.exited 0), (9, WaitSt.signaled 11)]) =
      [(7, WaitSt.exited 0), (9, WaitSt.signaled 11)].map bgDoneMsg ∧
    isBlockWait Action.waitNoHang = false := by
  refine ⟨(c5_reaper_nonblocking [(7, WaitSt.exited 0), (9, WaitSt.signaled 11)]
    env0 fgCmd0 "NULL").2.1, ?_⟩
  exact (c5_reaper_nonblocking [] env0 fgCmd0 "NULL").1 Action.waitNoHang
    (by simp [cleanUp])

/-- Claim C6: in the child of a background launch a requested redirection
with a NULL path is replaced by `/dev/null` before the open; a foreground
child's descriptor is never altered; and a background job that requested
output redirection with no path execs with stdout bound to `/dev/null`,
which is not the terminal. -/
theorem c6_devnull_substitution (cenv : ChildEnv) (cmd : Command) :
    (cmd.isBgProcess = true → cmd.wantsInputR = true → cmd.inRedirFile = none →
      (resolveRedir cmd).inRedirFile = some DEVNULL) ∧
    (cmd.isBgProcess = true → cmd.wantsOutputR = true → cmd.outRedirFile = none →
      (resolveRedir cmd).outRedirFile = some DEVNULL) ∧
    (cmd.isBgProcess = false → resolveRedir cmd = cmd) ∧
    StreamTarget.file DEVNULL ≠ StreamTarget.terminal ∧
    (cmd.isBgProcess = true → cmd.wantsInputR = false → cmd.wantsOutputR = true →
      cmd.outRedirFile = none → cenv.openWrite DEVNULL = true →
      cenv.dup2OutOk = true → cenv.execOk (cmd.argv.headD "") = true →
      childRun cenv cmd =
        ChildResult.execed (cmd.argv.headD "") cmd.argv
          (childSigTable cmd Sig.SIGINT) StreamTarget.terminal
          (StreamTarget.file DEVNULL)) := by
  refine ⟨?_, ?_, ?_, by simp, ?_⟩
  · intro hbg hw hnone
    unfold resolveRedir
    rw [if_pos hbg]
    simp [hnone, hw]
  · intro hbg hw hnone
    unfold resolveRedir
    rw [if_pos hbg]
    simp [hnone, hw]
  · intro hbg
    unfold resolveRedir
    rw [if_neg (by simp [hbg])]
  · intro hbg hwi hwo hpath ho hd hx
    exact childRun_bg_devnull_out cenv cmd hbg hwi hwo hpath ho hd hx

/-- Witness for C6: `ls &` with requested output redirection and no path
execs with stdout on the null device. -/
theorem c6_devnull_substitution_w :
    childRun cenvOk bgOutCmd0 =
      ChildResult.execed "ls" ["ls"] (childSigTable bgOutCmd0 Sig.SIGINT)
        StreamTarget.terminal (StreamTarget.file DEVNULL) :=
  (c6_devnull_substitution cenvOk bgOutCmd0).2.2.2.2 rfl rfl rfl rfl rfl rfl rfl

/-- Claim C7: child-setup errors are fatal only to the child — an
unopenable input file, an unopenable output file, and an unresolvable
program each make the child print the claimed message and exit with
status 1 — while the parent's `execCommand` returns with the loop-exit
flag clear, so the shell's loop continues. -/
theorem c7_child_errors_fatal (cenv : ChildEnv) (env : Env) (cmd : Command)
    (es : String) (p q : String) (hext : isExternal cmd) :
    (cmd.wantsInputR = true → cmd.inRedirFile = some p → cenv.openRead p = false →
      childRun cenv cmd = ChildResult.exited 1 ("cannot open " ++ p ++ " for input")) ∧
    (cmd.wantsInputR = false → cmd.wantsOutputR = true →
      cmd.outRedirFile = some q → cenv.openWrite q = false →
      childRun cenv cmd = ChildResult.exited 1 ("cannot open " ++ q ++ " for output")) ∧
    (cmd.wantsInputR = false → cmd.wantsOutputR = false →
      cenv.execOk (cmd.argv.headD "") = false →
      childRun cenv cmd =
        ChildResult.exited 1 (cmd.argv.headD "" ++ ": no such file or directory")) ∧
    (execCommand env cmd es).exitCalled = false := by
  refine ⟨childRun_inputFail cenv cmd p, childRun_outputFail cenv cmd q,
    childRun_execFail cenv cmd, ?_⟩
  rw [exec_external env cmd es hext]
  exact launchResult_exitCalled env cmd es

/-- Witness for C7: `wc < nofile` with an unopenable input, `wc > out.txt`
with an unopenable output, `ls` with an unresolvable program, and the
parent loop flag after launching `ls`. -/
theorem c7_child_errors_fatal_w :
    childRun cenvNoRead inCmd0 =
      ChildResult.exited 1 ("cannot open " ++ "nofile" ++ " for input") ∧
    childRun cenvNoWrite outCmd0 =
      ChildResult.exited 1 ("cannot open " ++ "out.txt" ++ " for output") ∧
    childRun cenvNoExec fgCmd0 =
      ChildResult.exited 1 ("ls" ++ ": no such file or directory") ∧
    (execCommand env0 fgCmd0 "NULL").exitCalled = false :=
  ⟨(c7_child_errors_fatal cenvNoRead env0 inCmd0 "NULL" "nofile" "x"
      (by decide)).1 rfl rfl rfl,
   (c7_child_errors_fatal cenvNoWrite env0 outCmd0 "NULL" "x" "out.txt"
      (by decide)).2.1 rfl rfl rfl rfl,
   (c7_child_errors_fatal cenvNoExec env0 fgCmd0 "NULL" "x" "x"
      (by decide)).2.2.1 rfl rfl rfl,
   (c7_child_errors_fatal cenvOk env0 fgCmd0 "NULL" "x" "x"
      (by decide)).2.2.2⟩

/-- Counterexample to C8 as stated: on the line `echo & hi` the background
flag is set although the last token is `hi`, not `&`; and on the line
`cat < &` the last token is `&` yet the flag stays clear, because that `&`
is consumed as the input-redirection path. -/
theorem c8_background_marker_cex :
    (getCommand ["echo", "&", "hi"]).map Command.isBgProcess = some true ∧
    ["echo", "&", "hi"].getLast? = some "hi" ∧
    (getCommand ["cat", "<", "&"]).map Command.isBgProcess = some false ∧
    ["cat", "<", "&"].getLast? = some "&" :=
  ⟨rfl, rfl, rfl, rfl⟩

/-- Claim C8 as amended: the parser sets `isBgProcess` exactly when the
scan meets an `&` token that is not consumed as a redirection path — at
any position, not only at the end of the line — and an `&` token is never
placed into the argument array. -/
theorem c8_background_marker_amended (toks : List String) (c : Command)
    (h : getCommand toks = some c) :
    c.isBgProcess = hasFreeAmp toks ∧ "&" ∉ c.argv := by
  constructor
  · simpa [initCommand] using parse_isBg toks initCommand c h
  · exact parse_no_amp_arg toks initCommand c h (by simp [initCommand])

/-- Witness for the amended C8 on the line `sleep 30 &`. -/
theorem c8_background_marker_amended_w :
    bgCmd0.isBgProcess = hasFreeAmp ["sleep", "30", "&"] ∧ "&" ∉ bgCmd0.argv :=
  c8_background_marker_amended ["sleep", "30", "&"] bgCmd0 rfl

/-- Counterexample to C9 as stated: on the lines `cat <` and `>` the parse
does not complete with a stored NULL path — it reaches `strdup(NULL)`,
undefined behavior, so the embedding is `none` and no descriptor exists. -/
theorem c9_dangling_redirection_cex :
    getCommand ["cat", "<"] = none ∧ getCommand [">"] = none :=
  ⟨rfl, rfl⟩

/-- Claim C9 as amended: the parse fails (reaches `strdup(NULL)`) exactly
on token sequences with a dangling redirection marker; consequently
whenever a descriptor is produced at all, a requested redirection always
carries a non-NULL path, so a NULL path never reaches the file-open call
in the child. -/
theorem c9_dangling_redirection_amended (toks : List String) :
    (getCommand toks = none ↔ danglingRedir toks = true) ∧
    (∀ c, getCommand toks = some c →
      (c.wantsInputR = true → c.inRedirFile ≠ none) ∧
      (c.wantsOutputR = true → c.outRedirFile ≠ none)) := by
  refine ⟨parse_none_iff toks initCommand, fun c h => ⟨?_, ?_⟩⟩
  · exact parse_in_some toks initCommand c h (by simp [initCommand])
  · exact parse_out_some toks initCommand c h (by simp [initCommand])

/-- Witness for the amended C9: `ls >` fails to parse, and the parsed
`wc < nofile` carries a non-NULL input path. -/
theorem c9_dangling_redirection_amended_w :
    getCommand ["ls", ">"] = none ∧ inCmd0.inRedirFile ≠ none := by
  constructor
  · exact (c9_dangling_redirection_amended ["ls", ">"]).1.mpr rfl
  · exact ((c9_dangling_redirection_amended ["wc", "<", "nofile"]).2 inCmd0 rfl).1 rfl

/-- Claim C10: `ENDSTATE` starts as the literal sentinel "NULL", and after
any prefix of commands none of which is a foreground launch, `cd` or
`status` (blank lines, comments, background launches), invoking `status`
prints exactly "NULL". -/
theorem c10_initial_sentinel (l : List (Env × Command)) (env : Env)
    (h : ∀ ec ∈ l, noRecordTouch ec.2) :
    runCmds l initialENDSTATE = "NULL" ∧
    execCommand env statusCmd0 (runCmds l initialENDSTATE) =
      { endstate := "exit value 0"
        actions := [Action.print "NULL"]
        exitCalled := false } := by
  have hrun : runCmds l initialENDSTATE = "NULL" := runCmds_preserve l initialENDSTATE h
  refine ⟨hrun, ?_⟩
  rw [hrun]
  rfl

/-- Witness for C10 on a session that runs a blank line, a comment and a
background launch before `status`. -/
theorem c10_initial_sentinel_w :
    runCmds inertList0 initialENDSTATE = "NULL" ∧
    execCommand env0 statusCmd0 (runCmds inertList0 initialENDSTATE) =
      { endstate := "exit value 0"
        actions := [Action.print "NULL"]
        exitCalled := false } :=
  c10_initial_sentinel inertList0 env0 (by decide)

end Smallsh

